import Mathlib

/-!
Shallow embedding of the QuantumNex MultiAgentOrchestrator
(src/agents/MultiAgentOrchestrator.py) and verification of the
specified properties of its task queue, trust ledger, performance
tracker, selection strategies, coordination protocol, health monitor
and agent-removal path.

Conventions of the embedding:
* Python floats are modelled as rationals (the code only ever combines
  them by field operations, min/max and comparisons).
* `datetime` values are modelled as rational timestamps; differences of
  datetimes become rational differences.
* Methods that mutate `self` become functions from the relevant piece
  of state to the new state; a Python `raise` before any mutation is
  an `Except.error` (the state is returned only on the `ok` path,
  matching the fact that the exception fires before any mutation).
* Sources of nondeterminism (uuid task ids, `datetime.now()`,
  `np.random`) are passed in as explicit parameters, so every function
  is a pure function of its inputs.
-/

namespace MAO

/-- Embedding of the `AgentStatus` enum (MultiAgentOrchestrator.py lines 25-30). -/
inductive AgentStatus where
  | initializing
  | active
  | paused
  | error
  | terminated
deriving DecidableEq

/-- Embedding of the `CoordinationMode` enum (lines 32-35). -/
inductive CoordinationMode where
  | collaborative
  | competitive
  | hybrid
deriving DecidableEq

/-- Embedding of the `Task` dataclass (lines 62-72), restricted to the fields
the task queue actually reads: `input_data` is kept as an association list of
strings and `created_at` is an injected rational timestamp. -/
structure Task where
  task_id : String
  task_type : String
  priority : ℤ
  requirements : List String
  input_data : List (String × String)
  created_at : ℚ
deriving DecidableEq

/-- The clamp `max(1, min(10, priority))` applied at line 291. -/
def clampPriority (p : ℤ) : ℤ := max 1 (min 10 p)

/-- The Boolean order used by `self.task_queue.sort(key=lambda x:
(x.priority, x.created_at), reverse=True)` at line 299: `a` may precede `b`
exactly when the key of `b` is lexicographically at most the key of `a`
(descending sort; Python sort is stable, as is `List.mergeSort`). -/
def taskLe (a b : Task) : Bool :=
  decide (b.priority < a.priority ∨ (b.priority = a.priority ∧ b.created_at ≤ a.created_at))

/-- The queue re-sort performed at line 299. -/
def sortQueue (q : List Task) : List Task := q.mergeSort taskLe

/-- The `Task(...)` construction at lines 288-295. -/
def mkTask (tid task_type : String) (priority : ℤ) (requirements : List String)
    (input_data : List (String × String)) (now : ℚ) : Task :=
  ⟨tid, task_type, clampPriority priority, requirements, input_data, now⟩

/-- Embedding of `submit_task` (lines 275-306) as a function of the global
task queue. The two `raise ValueError` validations come first, before any
mutation, so an error leaves the queue untouched; on success the new task is
appended and the queue is re-sorted. The uuid-based task id and
`datetime.now()` are injected as `tid` and `now`. -/
def submitTask (queue : List Task) (tid : String) (now : ℚ) (task_type : String)
    (requirements : List String) (input_data : List (String × String))
    (priority : ℤ) : Except String (List Task) :=
  if requirements = [] then Except.error "Task must have at least one requirement"
  else if input_data = [] then Except.error "Task must have input data"
  else Except.ok (sortQueue (queue ++ [mkTask tid task_type priority requirements input_data now]))

/-- The per-agent performance metric record created at lines 207-213 and
updated by `_update_agent_performance`. -/
structure PerfMetrics where
  success_rate : ℚ
  avg_processing_time : ℚ
  reliability_score : ℚ
  efficiency_score : ℚ
  throughput : ℚ
deriving DecidableEq

/-- The adaptive learning rate of `_update_agent_performance` (lines 640-642):
0.1 when the agent has fewer than 10 entries among the last 20 task-history
records, else 0.05. The history is modelled by the list of agent ids of its
entries; `list(self.task_history)[-20:]` is `drop (length - 20)`. -/
def learningRate (hist : List String) (agentId : String) : ℚ :=
  if ((hist.drop (hist.length - 20)).filter (fun a => a = agentId)).length < 10
  then 1/10 else 1/20

/-- Embedding of `_update_agent_performance` (lines 632-671): EMA updates of
success rate, average processing time and efficiency, the asymmetric
reliability move with its clamp and floor (lines 654-660), and the
throughput recomputation from the completed/failed counters. -/
def updateAgentPerformance (hist : List String) (agentId : String) (m : PerfMetrics)
    (completed failed : ℕ) (success : Bool) (processing_time : ℚ) : PerfMetrics :=
  let lr := learningRate hist agentId
  let currentSuccess : ℚ := if success then 1 else 0
  let success_rate := lr * currentSuccess + (1 - lr) * m.success_rate
  let avg_processing_time :=
    if processing_time > 0 then lr * processing_time + (1 - lr) * m.avg_processing_time
    else m.avg_processing_time
  let reliability_score :=
    if success then min 1 (m.reliability_score + 2/100 * (1 - m.reliability_score))
    else max (1/10) (m.reliability_score - 5/100 * m.reliability_score)
  let efficiency := 1 - (min processing_time 10) / 10
  let efficiency_score := lr * efficiency + (1 - lr) * m.efficiency_score
  let throughput :=
    if completed + failed > 0 then (completed : ℚ) / ((completed : ℚ) + (failed : ℚ)) * 60
    else m.throughput
  ⟨success_rate, avg_processing_time, reliability_score, efficiency_score, throughput⟩

/-- The trust ledger `self.trust_scores : Dict[Tuple[str, str], float]`
(line 121), modelled as an association list in dict insertion order. -/
abbrev Ledger := List ((String × String) × ℚ)

/-- Python dict assignment `self.trust_scores[k] = v`: overwrite in place if
the key exists, otherwise append (dicts preserve insertion order). -/
def ledgerSet (led : Ledger) (k : String × String) (v : ℚ) : Ledger :=
  if led.any (fun p => p.1 = k) then
    led.map (fun p => if p.1 = k then (k, v) else p)
  else led ++ [(k, v)]

/-- The guarded clamped update of `_update_trust_scores` (lines 683-689):
only an existing key is shifted, and the result is clamped to [0.1, 1.0]. -/
def ledgerAdjust (led : Ledger) (k : String × String) (change : ℚ) : Ledger :=
  led.map (fun p => if p.1 = k then (p.1, max (1/10) (min 1 (p.2 + change))) else p)

/-- The trust seeding loop of `create_agent` (lines 231-235): for every other
registered agent, set both directed edges to 0.5. `agents` is the agent list
after the new agent has been registered, matching the iteration over
`self.agents` at line 232. -/
def seedTrust (agents : List String) (led : Ledger) (aid : String) : Ledger :=
  agents.foldl
    (fun l other =>
      if other = aid then l
      else ledgerSet (ledgerSet l (aid, other) (1/2)) (other, aid) (1/2))
    led

/-- Embedding of `_update_trust_scores` (lines 673-689): a +0.05 / -0.1 shift,
applied to both directed edges between the completing agent and every other
agent, clamped to [0.1, 1.0], touching only keys already present. -/
def updateTrust (agents : List String) (led : Ledger) (aid : String) (success : Bool) : Ledger :=
  let change : ℚ := if success then 5/100 else -(1/10)
  agents.foldl
    (fun l other =>
      if other = aid then l
      else ledgerAdjust (ledgerAdjust l (aid, other) change) (other, aid) change)
    led

/-- The part of orchestrator state the trust ledger involves: the registered
agent ids (dict insertion order) and the ledger itself. -/
structure TrustState where
  agents : List String
  ledger : Ledger

/-- The two operations that write the trust ledger: agent creation
(`create_agent`, seeding 0.5 edges) and a completion-driven update
(`_update_trust_scores`). -/
inductive TrustOp where
  | create (aid : String)
  | update (aid : String) (success : Bool)

/-- Effect of one trust-writing operation on the trust state. Creation first
registers the agent (line 224) and then seeds edges with all others
(lines 231-235). -/
def applyTrustOp (st : TrustState) : TrustOp → TrustState
  | TrustOp.create aid =>
      let agents := st.agents ++ [aid]
      ⟨agents, seedTrust agents st.ledger aid⟩
  | TrustOp.update aid success => ⟨st.agents, updateTrust st.agents st.ledger aid success⟩

/-- Run a sequence of trust operations from the empty initial state
(`self.trust_scores = {}`, line 121). -/
def runTrustOps (ops : List TrustOp) : TrustState :=
  ops.foldl applyTrustOp ⟨[], []⟩

/-- The trust-range invariant claimed by the spec: every stored score lies in
[0.1, 1.0]. -/
def trustInv (led : Ledger) : Prop := ∀ p ∈ led, 1/10 ≤ p.2 ∧ p.2 ≤ 1

/-- The `performance_weights` of `AgentConfig` (lines 43-47). -/
structure PerfWeights where
  success_rate : ℚ
  efficiency : ℚ
  reliability : ℚ
deriving DecidableEq

/-- The default weights {0.4, 0.3, 0.3} of lines 43-47. -/
def defaultWeights : PerfWeights := ⟨2/5, 3/10, 3/10⟩

/-- The slice of an `AgentState` plus its `AgentConfig` that the selection
strategies read: id, capabilities, metrics, current local-queue length,
`max_concurrent_tasks`, and the configured performance weights. -/
structure SelAgent where
  id : String
  capabilities : List String
  metrics : PerfMetrics
  queueLen : ℕ
  maxConcurrent : ℚ
  weights : PerfWeights
deriving DecidableEq

/-- The orchestrator state the strategies consult: the registered agents in
dict order and the trust ledger. -/
structure SelState where
  agents : List SelAgent
  trust : Ledger

/-- The `len(set(task.requirements) & set(agent.capabilities))` count used
at lines 427 and 457: number of distinct requirements the agent offers. -/
def capMatch (reqs caps : List String) : ℕ :=
  (reqs.dedup.filter (fun r => r ∈ caps)).length

/-- Python dict `.get` with default 0.5 at line 432. -/
def trustGet (led : Ledger) (k : String × String) : ℚ :=
  match led.find? (fun p => p.1 = k) with
  | some p => p.2
  | none => 1/2

/-- The `np.mean` trust term of the collaborative score (lines 431-434):
mean trust toward every other registered agent. -/
def avgTrust (st : SelState) (aid : String) : ℚ :=
  let vals := (st.agents.filter (fun a => ¬(a.id = aid))).map (fun o => trustGet st.trust (aid, o.id))
  vals.sum / vals.length

/-- The combined collaborative score of one agent (lines 413-444):
0.35·performance + 0.25·load + 0.25·capability + 0.15·trust, clamped by
`max(0.0, min(1.0, total_score))`. -/
def collaborativeScore (st : SelState) (reqs : List String) (a : SelAgent) : ℚ :=
  let performance :=
    a.metrics.success_rate * a.weights.success_rate +
    a.metrics.efficiency_score * a.weights.efficiency +
    a.metrics.reliability_score * a.weights.reliability
  let load_score := if a.maxConcurrent > 0 then 1 - (a.queueLen : ℚ) / a.maxConcurrent else 1
  let capability_score := (capMatch reqs a.capabilities : ℚ) / (reqs.length : ℚ)
  let trust_score := avgTrust st a.id
  let total := performance * (35/100) + load_score * (25/100) +
    capability_score * (25/100) + trust_score * (15/100)
  max 0 (min 1 total)

/-- Python `max(d.items(), key=lambda x: x[1])[0]`: the first key attaining
the maximal score, in iteration order (a later entry replaces the current
best only when strictly greater). -/
def argmaxFirst (l : List (String × ℚ)) : Option String :=
  match l with
  | [] => none
  | x :: xs => some ((xs.foldl (fun best y => if y.2 > best.2 then y else best) x).1)

/-- Embedding of `_select_agent_collaborative` (lines 405-446). Candidate ids
always come from `self.agents`, so the lookup never misses; ids without a
registered agent are skipped (Python would raise a KeyError there). -/
def selectCollaborative (st : SelState) (reqs : List String) (ids : List String) : Option String :=
  argmaxFirst (ids.filterMap (fun aid =>
    (st.agents.find? (fun a => a.id = aid)).map (fun a => (aid, collaborativeScore st reqs a))))

/-- Embedding of `_select_agent_competitive` (lines 448-467); the
`np.random.uniform(0.9, 1.1)` jitter is injected as `jitter`. -/
def selectCompetitive (st : SelState) (reqs : List String) (priority : ℤ)
    (ids : List String) (jitter : String → ℚ) : Option String :=
  argmaxFirst (ids.filterMap (fun aid =>
    (st.agents.find? (fun a => a.id = aid)).map (fun a =>
      (aid, a.metrics.success_rate * (capMatch reqs a.capabilities : ℚ) *
        a.metrics.efficiency_score * jitter aid * ((priority : ℚ) / 10)))))

/-- Embedding of `_select_agent_hybrid` (lines 469-483); the
`np.random.random()` coin is injected as `coin`. -/
def selectHybrid (st : SelState) (reqs : List String) (priority : ℤ)
    (ids : List String) (jitter : String → ℚ) (coin : ℚ) : Option String :=
  if priority ≥ 8 ∨ reqs.length > 3 then selectCollaborative st reqs ids
  else if priority ≤ 3 then selectCompetitive st reqs priority ids jitter
  else if coin > 3/10 then selectCollaborative st reqs ids
  else selectCompetitive st reqs priority ids jitter

/-- Embedding of `_select_agent_for_task` (lines 390-403): empty set gives
no agent, a singleton set short-circuits to its only member, and otherwise
the strategy selected by the coordination mode runs. -/
def selectAgentForTask (st : SelState) (reqs : List String) (priority : ℤ)
    (suitable : List String) (mode : CoordinationMode)
    (jitter : String → ℚ) (coin : ℚ) : Option String :=
  match suitable with
  | [] => none
  | [a] => some a
  | a :: b :: rest =>
    match mode with
    | CoordinationMode.collaborative => selectCollaborative st reqs (a :: b :: rest)
    | CoordinationMode.competitive => selectCompetitive st reqs priority (a :: b :: rest) jitter
    | CoordinationMode.hybrid => selectHybrid st reqs priority (a :: b :: rest) jitter coin

/-- The slice of an agent record that `coordinate_agents` and the result
combination read: id, status, and the reliability score used as a
collaborative combination weight (line 833). -/
structure CoordAgent where
  id : String
  status : AgentStatus
  reliability : ℚ
deriving DecidableEq

/-- Outcome of one `_get_agent_contribution` call, as the coordination layer
observes it: either a normal return carrying (contribution, confidence) or a
raised exception (collected by `gather(..., return_exceptions=True)`).
`finish` is the wall-clock time, in seconds from the start of the
coordination, at which the call completes. -/
inductive ContribOutcome where
  | ok (finish contribution confidence : ℚ)
  | exn (finish : ℚ)
deriving DecidableEq

/-- Completion time of a contribution call. -/
def ContribOutcome.finish : ContribOutcome → ℚ
  | ContribOutcome.ok f _ _ => f
  | ContribOutcome.exn f => f

/-- Whether the call ended in an exception. -/
def ContribOutcome.isExn : ContribOutcome → Bool
  | ContribOutcome.ok _ _ _ => false
  | ContribOutcome.exn _ => true

/-- One entry of `coordination_results` (lines 752-761): the zero entries
written for exceptional results carry an `error` key, modelled by
`hasError`. -/
structure ResultEntry where
  agent_id : String
  contribution : ℚ
  confidence : ℚ
  hasError : Bool
deriving DecidableEq

/-- The zero-contribution, zero-confidence entry written at lines 756-761. -/
def zeroEntry (aid : String) : ResultEntry := ⟨aid, 0, 0, true⟩

/-- The per-agent result processing of lines 752-761: a normal return keeps
its values, an exception becomes the zero entry. -/
def contribEntry (aid : String) : ContribOutcome → ResultEntry
  | ContribOutcome.ok _ c conf => ⟨aid, c, conf, false⟩
  | ContribOutcome.exn _ => zeroEntry aid

/-- Reliability lookup `self.agents[agent_id].performance_metrics[...]` used
at line 833; entries are always built from registered agents, so the miss
branch is unreachable. -/
def relOf (agents : List CoordAgent) (aid : String) : ℚ :=
  match agents.find? (fun a => a.id = aid) with
  | some a => a.reliability
  | none => 0

/-- `np.mean` over a list of rationals (division by zero yields 0 in ℚ). -/
def listMean (l : List ℚ) : ℚ := l.sum / (l.length : ℚ)

/-- The collaborative combination branch (lines 824-840): confidence times
reliability weighted average over the entries without an error key, falling
back to the plain mean of all contributions when the total weight is 0. -/
def combineCollaborative (agents : List CoordAgent) (entries : List ResultEntry) : ℚ :=
  let good := entries.filter (fun e => !e.hasError)
  let totalWeight := (good.map (fun e => e.confidence * relOf agents e.agent_id)).sum
  if totalWeight > 0 then
    (good.map (fun e => e.contribution * (e.confidence * relOf agents e.agent_id))).sum / totalWeight
  else listMean (entries.map (fun e => e.contribution))

/-- The competitive combination branch (lines 842-854): the contribution of
the error-free entry maximizing contribution·confidence, starting from a
best score of -1, and 0 when nothing beat that. -/
def combineCompetitive (entries : List ResultEntry) : ℚ :=
  let r := entries.foldl
    (fun best e =>
      if !e.hasError ∧ e.contribution * e.confidence > best.1
      then (e.contribution * e.confidence, e.contribution) else best)
    ((-1 : ℚ), (0 : ℚ))
  if r.1 ≥ 0 then r.2 else 0

/-- The mode dispatch of `_combine_coordination_results` (lines 818-872),
returning the `combined_value`; the hybrid branch blends the two others by
the mean confidence across all entries (lines 856-864). -/
def combineResults (agents : List CoordAgent) (entries : List ResultEntry) :
    CoordinationMode → ℚ
  | CoordinationMode.collaborative => combineCollaborative agents entries
  | CoordinationMode.competitive => combineCompetitive entries
  | CoordinationMode.hybrid =>
    let quality := listMean (entries.map (fun e => e.confidence))
    combineCollaborative agents entries * quality + combineCompetitive entries * (1 - quality)

/-- The availability filter of `coordinate_agents` (lines 722-723): keep the
candidate ids that are registered and whose status is Active. -/
def availableAgents (agents : List CoordAgent) (agentIds : List String) : List String :=
  agentIds.filter (fun aid =>
    match agents.find? (fun a => a.id = aid) with
    | some a => a.status = AgentStatus.active
    | none => false)

/-- The `CoordinationResult` dataclass (lines 74-82), with the result payload
split into an optional error message and, on success, the individual entries
and the combined value. -/
structure CoordResult where
  participating : List String
  success : Bool
  errorMsg : Option String
  entries : List ResultEntry
  combinedValue : ℚ
deriving DecidableEq

/-- Embedding of `coordinate_agents` (lines 714-791). The contribution calls
run under `asyncio.wait_for(gather(...), timeout=10.0)`: the gather resolves
only when every call has finished, so if any available agent finishes after
the 10-second window the whole await raises `TimeoutError` and the except
branch (lines 780-791) returns a failure result; only when all calls finish
within the window are the per-call results processed (exceptions becoming
zero entries) and combined. `oracle` gives the call outcome of each agent. -/
def coordinateAgents (agents : List CoordAgent) (agentIds : List String)
    (mode : CoordinationMode) (oracle : String → ContribOutcome) : CoordResult :=
  let available := availableAgents agents agentIds
  if available = [] then
    ⟨[], false, some "No available agents for coordination", [], 0⟩
  else if available.any (fun aid => (oracle aid).finish > 10) then
    ⟨available, false, some "Coordination timeout", [], 0⟩
  else
    let entries := available.map (fun aid => contribEntry aid (oracle aid))
    ⟨available, true, none, entries, combineResults agents entries mode⟩

/-- The slice of an agent record the heartbeat check of `_monitor_agents`
reads and writes: status and last-heartbeat timestamp. -/
structure MonAgent where
  status : AgentStatus
  last_heartbeat : ℚ
deriving DecidableEq

/-- Embedding of one iteration of the per-agent loop of `_monitor_agents`
(lines 881-900), minus the random resource-usage repaint: a stale heartbeat
(over 300 seconds old) sets status Error; an agent that is then Active gets
its heartbeat refreshed; the returned flag records whether the agent was
scheduled for removal (status Terminated at line 899). -/
def monitorTickAgent (now : ℚ) (a : MonAgent) : MonAgent × Bool :=
  let status1 := if now - a.last_heartbeat > 300 then AgentStatus.error else a.status
  let hb := if status1 = AgentStatus.active then now else a.last_heartbeat
  (⟨status1, hb⟩, status1 = AgentStatus.terminated)

/-- One entry of an agent-local task queue, the dict built at lines 333-340
restricted to the fields `_remove_agent` reads back (lines 963-968). -/
structure QueuedItem where
  task_id : String
  task_type : String
  input_data : List (String × String)
  priority : ℤ
deriving DecidableEq

/-- The slice of an `AgentState` that `_remove_agent` reads: id,
capabilities and the local task queue. -/
structure RAgent where
  id : String
  capabilities : List String
  task_queue : List QueuedItem
deriving DecidableEq

/-- The orchestrator state touched by `_remove_agent`: registered agents,
the global task queue, the capability registry and the trust ledger. -/
structure OrchState where
  agents : List RAgent
  task_queue : List Task
  capability_registry : List (String × List String)
  trust_scores : Ledger

/-- The resubmission loop of `_remove_agent` (lines 961-968): each queued
item is resubmitted through `submit_task` with `requirements=[]`; the first
raised exception aborts the loop (the await is not guarded by a try).
`tids` supplies the fresh uuid task ids in order. -/
def resubmitQueue (queue : List Task) (items : List QueuedItem) (now : ℚ)
    (tids : ℕ → String) (n : ℕ) : Except String (List Task) :=
  match items with
  | [] => Except.ok queue
  | item :: rest =>
    match submitTask queue (tids n) now item.task_type [] item.input_data item.priority with
    | Except.error e => Except.error e
    | Except.ok q => resubmitQueue q rest now tids (n + 1)

/-- The capability-registry cleanup of `_remove_agent` (lines 970-973) for
one capability: `self.capability_registry[capability]` on the defaultdict
creates an empty entry when missing; `list.remove` deletes the first
occurrence of the agent id when present. -/
def registryRemove (reg : List (String × List String)) (cap aid : String) :
    List (String × List String) :=
  if reg.any (fun p => p.1 = cap) then
    reg.map (fun p => if p.1 = cap then (p.1, if aid ∈ p.2 then p.2.erase aid else p.2) else p)
  else reg ++ [(cap, [])]

/-- Embedding of `_remove_agent` (lines 953-984). An unknown id is a no-op;
otherwise the local queue is resubmitted task by task (any exception
propagates before further mutation), then the capability registry, the trust
edges touching the agent, and the agent record itself are removed. -/
def removeAgent (st : OrchState) (aid : String) (now : ℚ) (tids : ℕ → String) :
    Except String OrchState :=
  match st.agents.find? (fun a => a.id = aid) with
  | none => Except.ok st
  | some ag =>
    match resubmitQueue st.task_queue ag.task_queue now tids 0 with
    | Except.error e => Except.error e
    | Except.ok q =>
      let registry := ag.capabilities.foldl (fun r cap => registryRemove r cap aid)
        st.capability_registry
      let trust := st.trust_scores.filter (fun p => ¬(p.1.1 = aid ∨ p.1.2 = aid))
      Except.ok ⟨st.agents.filter (fun a => ¬(a.id = aid)), q, registry, trust⟩

/-- The queue ordering claimed by the spec for equal-priority tasks (spec-side
definition, to be compared with the source ordering `taskLe`): priority as
primary key, higher first, and among equal priorities the earlier-created
task first. -/
abbrev specClaimedOrder (a b : Task) : Prop :=
  b.priority < a.priority ∨ (b.priority = a.priority ∧ a.created_at ≤ b.created_at)

/-- The ordering actually enforced by the sort at line 299, as a proposition:
descending lexicographic on (priority, created_at), so among equal priorities
the later-created task comes first. -/
abbrev codeQueueOrder (a b : Task) : Prop :=
  b.priority < a.priority ∨ (b.priority = a.priority ∧ b.created_at ≤ a.created_at)

/-- Concrete task created at time 0 with priority 5 (for the tie-break
counterexample). -/
def tEarly : Task := ⟨"t0", "x", 5, ["r"], [("k", "v")], 0⟩

/-- The task that submitting with priority 5 at time 1 produces. -/
def tLate : Task := ⟨"t1", "x", 5, ["r"], [("k", "v")], 1⟩

/-- Concrete orchestrator state with a single agent "A" holding one queued
task, exercising the resubmission loop of `_remove_agent`. -/
def c2State : OrchState :=
  ⟨[⟨"A", ["cap1"], [⟨"T1", "xt", [("k", "v")], 5⟩]⟩], [], [("cap1", ["A"])], []⟩

/-- Two Active agents (for the coordination scenarios). -/
def c1Agents : List CoordAgent :=
  [⟨"a1", AgentStatus.active, 1⟩, ⟨"a2", AgentStatus.active, 1⟩]

/-- The candidate ids passed to `coordinate_agents` in the scenarios. -/
def c1Ids : List String := ["a1", "a2"]

/-- Contribution outcomes where agent a1 answers after 1 second but agent a2
only finishes after 11 seconds, beyond the 10-second window. -/
def c1Oracle : String → ContribOutcome :=
  fun aid => if aid = "a1" then ContribOutcome.ok 1 (1/2) (1/2) else ContribOutcome.ok 11 (1/2) (1/2)

/-- Contribution outcomes where agent a1 answers normally and agent a2
raises an exception, both inside the window. -/
def c1OracleExn : String → ContribOutcome :=
  fun aid => if aid = "a1" then ContribOutcome.ok 1 (1/2) (1/2) else ContribOutcome.exn 2

/-- A trust-operation history: two agents are created, then agent a reports
a failure. -/
def c3Ops : List TrustOp :=
  [TrustOp.create "a", TrustOp.create "b", TrustOp.update "a" false]

/-- Concrete agent for the monotonicity witness. -/
def c7Agent : SelAgent := ⟨"w", ["r"], ⟨1, 0, 1, 1, 0⟩, 0, 5, defaultWeights⟩

/-- The sort of the queue is a permutation of the queue (helper). -/
theorem sortQueue_perm (q : List Task) : (sortQueue q).Perm q :=
  List.mergeSort_perm q taskLe

/-- Transitivity of the queue order used by the sort (helper). -/
theorem taskLe_trans (a b c : Task) (h1 : taskLe a b = true) (h2 : taskLe b c = true) :
    taskLe a c = true := by
  simp only [taskLe, decide_eq_true_eq] at h1 h2 ⊢
  rcases h1 with h1 | ⟨h1p, h1c⟩ <;> rcases h2 with h2 | ⟨h2p, h2c⟩
  · exact Or.inl (lt_trans h2 h1)
  · exact Or.inl (by omega)
  · exact Or.inl (by omega)
  · exact Or.inr ⟨by omega, le_trans h2c h1c⟩

/-- Totality of the queue order used by the sort (helper). -/
theorem taskLe_total (a b : Task) : (taskLe a b || taskLe b a) = true := by
  simp only [taskLe, Bool.or_eq_true, decide_eq_true_eq]
  rcases lt_trichotomy b.priority a.priority with h | h | h
  · exact Or.inl (Or.inl h)
  · rcases le_total b.created_at a.created_at with hc | hc
    · exact Or.inl (Or.inr ⟨h, hc⟩)
    · exact Or.inr (Or.inr ⟨h.symm, hc⟩)
  · exact Or.inr (Or.inl h)

/-- C8: on every completion processed by `_update_agent_performance`, the
reliability score moves asymmetrically: on success it becomes the old score
plus 0.02·(1 − old), clamped at 1.0; on failure it becomes the old score
minus 0.05·old, floored at 0.1. -/
theorem reliability_update_asymmetric (hist : List String) (agentId : String)
    (m : PerfMetrics) (completed failed : ℕ) (success : Bool) (pt : ℚ) :
    (updateAgentPerformance hist agentId m completed failed success pt).reliability_score =
      if success then min 1 (m.reliability_score + 2/100 * (1 - m.reliability_score))
      else max (1/10) (m.reliability_score - 5/100 * m.reliability_score) := by
  cases success <;> simp [updateAgentPerformance]

/-- C10: when the suitable-agent set is a singleton, `_select_agent_for_task`
returns that agent directly in every coordination mode, independently of the
selection-strategy state and of both injected random sources. -/
theorem single_candidate_returned_directly (st : SelState) (reqs : List String)
    (priority : ℤ) (a : String) (mode : CoordinationMode)
    (jitter : String → ℚ) (coin : ℚ) :
    selectAgentForTask st reqs priority [a] mode jitter coin = some a := rfl

/-- C9 counterexample: a Paused agent whose heartbeat is 301 seconds old is
also transitioned to Error by the heartbeat-timeout check, so the transition
is not restricted to Active agents as the claim states. -/
theorem monitor_paused_stale_counterexample :
    (monitorTickAgent 301 ⟨AgentStatus.paused, 0⟩).1.status = AgentStatus.error ∧
    AgentStatus.paused ≠ AgentStatus.error := by
  constructor
  · norm_num [monitorTickAgent]
  · decide

/-- C9 (amended): on a monitor tick, every agent whose time since last
heartbeat exceeds 300 seconds transitions to Error regardless of its current
status (in particular every stale Active agent becomes Error), and an agent
within the window keeps its status. -/
theorem monitor_stale_sets_error (now : ℚ) (a : MonAgent) :
    (now - a.last_heartbeat > 300 → (monitorTickAgent now a).1.status = AgentStatus.error) ∧
    (now - a.last_heartbeat ≤ 300 → (monitorTickAgent now a).1.status = a.status) := by
  constructor
  · intro h
    simp [monitorTickAgent, h]
  · intro h
    simp [monitorTickAgent, not_lt.mpr h]

/-- C9 witness: a concrete stale Active agent becomes Error on the tick. -/
theorem monitor_stale_sets_error_witness :
    (301 : ℚ) - (⟨AgentStatus.active, 0⟩ : MonAgent).last_heartbeat > 300 ∧
    (monitorTickAgent 301 ⟨AgentStatus.active, 0⟩).1.status = AgentStatus.error :=
  ⟨by norm_num, (monitor_stale_sets_error 301 ⟨AgentStatus.active, 0⟩).1 (by norm_num)⟩

/-- C2: evaluating `_remove_agent` on an agent holding one queued task shows
the resubmission path failing: `submit_task` is called with an empty
requirements list, whose validation raises before anything is enqueued, so
the queued task is lost rather than re-submitted (the inline comments at
lines 958-965 document the intent to resubmit). -/
theorem remove_agent_resubmission_fails :
    removeAgent c2State "A" 0 (fun _ => "NT") =
      Except.error "Task must have at least one requirement" ∧
    (c2State.agents.map (fun a => a.task_queue.length)) = [1] := by
  constructor
  · rfl
  · rfl

/-- C4: for every submission that passes validation, the stored priority of
the created task equals the input clamped to [1, 10], and in particular lies
in that interval, whatever integer was supplied. The freshness hypothesis
reflects the uuid-based task ids. -/
theorem submit_priority_clamped (queue : List Task) (tid : String) (now : ℚ)
    (tt : String) (req : List String) (inp : List (String × String)) (p : ℤ)
    (hreq : req ≠ []) (hinp : inp ≠ []) (hfresh : ∀ t ∈ queue, t.task_id ≠ tid) :
    ∃ q', submitTask queue tid now tt req inp p = Except.ok q' ∧
      mkTask tid tt p req inp now ∈ q' ∧
      ∀ t ∈ q', t.task_id = tid →
        t.priority = max 1 (min 10 p) ∧ 1 ≤ t.priority ∧ t.priority ≤ 10 := by
  refine ⟨sortQueue (queue ++ [mkTask tid tt p req inp now]), by simp [submitTask, hreq, hinp], ?_, ?_⟩
  · exact (sortQueue_perm _).mem_iff.mpr (by simp)
  · intro t ht hid
    have hmem : t ∈ queue ++ [mkTask tid tt p req inp now] := (sortQueue_perm _).mem_iff.mp ht
    rcases List.mem_append.mp hmem with hin | hin
    · exact absurd hid (hfresh t hin)
    · have hteq : t = mkTask tid tt p req inp now := by simpa using hin
      subst hteq
      refine ⟨rfl, le_max_left 1 _, max_le (by norm_num) (min_le_left _ _)⟩

/-- C4 witness: submitting with priority 42 to an empty queue stores
priority 10. -/
theorem submit_priority_clamped_witness :
    (["r"] : List String) ≠ [] ∧ ([("k", "v")] : List (String × String)) ≠ [] ∧
    (∀ t ∈ ([] : List Task), t.task_id ≠ "t1") ∧
    ∃ q', submitTask [] "t1" 0 "x" ["r"] [("k", "v")] 42 = Except.ok q' ∧
      mkTask "t1" "x" 42 ["r"] [("k", "v")] 0 ∈ q' ∧
      ∀ t ∈ q', t.task_id = "t1" →
        t.priority = max 1 (min 10 42) ∧ 1 ≤ t.priority ∧ t.priority ≤ 10 :=
  ⟨by simp, by simp, by simp,
    submit_priority_clamped [] "t1" 0 "x" ["r"] [("k", "v")] 42 (by simp) (by simp) (by simp)⟩

/-- C5: `submit_task` raises a validation error exactly when the
requirements list or the input payload is empty (the raise fires before any
mutation, so the queue is untouched); on every non-empty requirements list
and non-empty input it succeeds, and the new queue is a permutation of the
old queue plus exactly the one created task, so exactly one task was
enqueued. -/
theorem submit_validation_iff (queue : List Task) (tid : String) (now : ℚ)
    (tt : String) (req : List String) (inp : List (String × String)) (p : ℤ) :
    ((req = [] ∨ inp = []) ↔ ∃ e, submitTask queue tid now tt req inp p = Except.error e)
    ∧ (req ≠ [] → inp ≠ [] →
        ∃ q', submitTask queue tid now tt req inp p = Except.ok q' ∧
          q'.Perm (mkTask tid tt p req inp now :: queue) ∧
          q'.length = queue.length + 1) := by
  constructor
  · constructor
    · intro h
      rcases h with h | h
      · exact ⟨"Task must have at least one requirement", by simp [submitTask, h]⟩
      · by_cases hreq : req = []
        · exact ⟨"Task must have at least one requirement", by simp [submitTask, hreq]⟩
        · exact ⟨"Task must have input data", by simp [submitTask, hreq, h]⟩
    · intro ⟨e, he⟩
      by_cases hreq : req = []
      · exact Or.inl hreq
      · by_cases hinp : inp = []
        · exact Or.inr hinp
        · simp [submitTask, hreq, hinp] at he
  · intro hreq hinp
    refine ⟨sortQueue (queue ++ [mkTask tid tt p req inp now]),
      by simp [submitTask, hreq, hinp], ?_, ?_⟩
    · exact (sortQueue_perm _).trans (List.perm_append_singleton _ _)
    · have := (sortQueue_perm (queue ++ [mkTask tid tt p req inp now])).length_eq
      simpa using this

/-- C5 witness: a concrete rejected empty-requirements submission and a
concrete accepted one. -/
theorem submit_validation_iff_witness :
    (∃ e, submitTask [] "t1" 0 "x" [] [("k", "v")] 5 = Except.error e) ∧
    (∃ q', submitTask [] "t1" 0 "x" ["r"] [("k", "v")] 5 = Except.ok q' ∧
      q'.Perm (mkTask "t1" "x" 5 ["r"] [("k", "v")] 0 :: []) ∧
      q'.length = ([] : List Task).length + 1) :=
  ⟨(submit_validation_iff [] "t1" 0 "x" [] [("k", "v")] 5).1.mp (Or.inl rfl),
    (submit_validation_iff [] "t1" 0 "x" ["r"] [("k", "v")] 5).2 (by simp) (by simp)⟩

/-- C6 counterexample: submitting a priority-5 task at time 1 into a queue
holding a priority-5 task created at time 0 places the later-created task
first; the earlier-created task does not precede it, refuting the claimed
earlier-created-first tie-break. -/
theorem submit_tiebreak_counterexample :
    submitTask [tEarly] "t1" 1 "x" ["r"] [("k", "v")] 5 = Except.ok [tLate, tEarly] ∧
    tLate.priority = tEarly.priority ∧ tEarly.created_at < tLate.created_at ∧
    ¬ specClaimedOrder tLate tEarly := by
  refine ⟨?_, rfl, by norm_num [tEarly, tLate], ?_⟩
  · simp only [submitTask, sortQueue]
    norm_num [tEarly, tLate, mkTask, clampPriority, List.mergeSort, List.merge, taskLe]
  · simp [specClaimedOrder, tEarly, tLate]

/-- C6 (amended): after every successful `submit_task` call the queue is
sorted descending lexicographically on (priority, creation time): priority
is the primary key with higher priority first, and among equal priorities
the later-created task comes first (the `reverse=True` sort reverses the
creation-time tie-break as well). -/
theorem submit_queue_sorted (queue : List Task) (tid : String) (now : ℚ)
    (tt : String) (req : List String) (inp : List (String × String)) (p : ℤ)
    (q' : List Task) (h : submitTask queue tid now tt req inp p = Except.ok q') :
    q'.Pairwise codeQueueOrder := by
  by_cases hreq : req = []
  · simp [submitTask, hreq] at h
  · by_cases hinp : inp = []
    · simp [submitTask, hreq, hinp] at h
    · simp only [submitTask, if_neg hreq, if_neg hinp, Except.ok.injEq] at h
      subst h
      have hs := List.sorted_mergeSort taskLe_trans taskLe_total
        (queue ++ [mkTask tid tt p req inp now])
      exact hs.imp (fun hab => by simpa [taskLe, codeQueueOrder] using hab)

/-- C6 witness: the concrete successful submission from the counterexample
yields a queue sorted in the descending order. -/
theorem submit_queue_sorted_witness :
    submitTask [tEarly] "t1" 1 "x" ["r"] [("k", "v")] 5 = Except.ok [tLate, tEarly] ∧
    List.Pairwise codeQueueOrder [tLate, tEarly] := by
  have h : submitTask [tEarly] "t1" 1 "x" ["r"] [("k", "v")] 5 = Except.ok [tLate, tEarly] := by
    simp only [submitTask, sortQueue]
    norm_num [tEarly, tLate, mkTask, clampPriority, List.mergeSort, List.merge, taskLe]
  exact ⟨h, submit_queue_sorted [tEarly] "t1" 1 "x" ["r"] [("k", "v")] 5 [tLate, tEarly] h⟩

/-- Setting a key to a value in [0.1, 1.0] preserves the trust-range
invariant (helper). -/
theorem ledgerSet_inv (led : Ledger) (k : String × String) (v : ℚ)
    (hv : 1/10 ≤ v ∧ v ≤ 1) (h : trustInv led) : trustInv (ledgerSet led k v) := by
  intro p hp
  unfold ledgerSet at hp
  by_cases hk : led.any (fun q => q.1 = k)
  · simp only [hk, if_pos] at hp
    rcases List.mem_map.mp hp with ⟨q, hq, hqe⟩
    by_cases hq1 : q.1 = k
    · simp only [hq1, if_pos] at hqe
      rw [← hqe]
      exact hv
    · simp only [hq1, if_neg, if_false] at hqe
      rw [← hqe]
      exact h q hq
  · simp only [hk, if_neg, if_false] at hp
    rcases List.mem_append.mp hp with hq | hq
    · exact h p hq
    · have : p = (k, v) := by simpa using hq
      rw [this]
      exact hv

/-- The clamped shift of an existing key preserves the trust-range invariant
(helper). -/
theorem ledgerAdjust_inv (led : Ledger) (k : String × String) (c : ℚ)
    (h : trustInv led) : trustInv (ledgerAdjust led k c) := by
  intro p hp
  unfold ledgerAdjust at hp
  rcases List.mem_map.mp hp with ⟨q, hq, hqe⟩
  by_cases hq1 : q.1 = k
  · simp only [hq1, if_pos] at hqe
    rw [← hqe]
    exact ⟨le_max_left _ _, max_le (by norm_num) (min_le_left _ _)⟩
  · simp only [hq1, if_neg, if_false] at hqe
    rw [← hqe]
    exact h q hq

/-- The trust seeding of `create_agent` preserves the trust-range invariant
(helper). -/
theorem seedTrust_inv (agents : List String) (aid : String) :
    ∀ led, trustInv led → trustInv (seedTrust agents led aid) := by
  induction agents with
  | nil => intro led h; exact h
  | cons other rest ih =>
    intro led h
    unfold seedTrust
    simp only [List.foldl_cons]
    by_cases ho : other = aid
    · simp only [ho, if_pos]
      exact ih led h
    · simp only [ho, if_neg, if_false]
      exact ih _ (ledgerSet_inv _ _ _ (by norm_num) (ledgerSet_inv _ _ _ (by norm_num) h))

/-- The completion-driven trust update preserves the trust-range invariant
(helper). -/
theorem updateTrust_inv (agents : List String) (aid : String) (success : Bool) :
    ∀ led, trustInv led → trustInv (updateTrust agents led aid success) := by
  induction agents with
  | nil => intro led h; exact h
  | cons other rest ih =>
    intro led h
    unfold updateTrust
    simp only [List.foldl_cons]
    by_cases ho : other = aid
    · simp only [ho, if_pos]
      exact ih led h
    · simp only [ho, if_neg, if_false]
      exact ih _ (ledgerAdjust_inv _ _ _ (ledgerAdjust_inv _ _ _ h))

/-- Running any sequence of trust operations from an invariant-satisfying
state keeps the invariant (helper). -/
theorem foldTrustOps_inv (ops : List TrustOp) :
    ∀ st : TrustState, trustInv st.ledger → trustInv ((ops.foldl applyTrustOp st).ledger) := by
  induction ops with
  | nil => intro st h; exact h
  | cons op rest ih =>
    intro st h
    simp only [List.foldl_cons]
    apply ih
    cases op with
    | create aid => exact seedTrust_inv _ _ _ h
    | update aid success => exact updateTrust_inv _ _ _ _ h

/-- C3: after any sequence of `create_agent` seedings and success/failure
updates of `_update_trust_scores`, every trust score stored in the ledger
lies in the closed interval [0.1, 1.0]. -/
theorem trust_scores_in_range (ops : List TrustOp) (p : (String × String) × ℚ)
    (hp : p ∈ (runTrustOps ops).ledger) : 1/10 ≤ p.2 ∧ p.2 ≤ 1 :=
  foldTrustOps_inv ops ⟨[], []⟩ (fun _ hq => absurd hq (List.not_mem_nil _)) p hp

/-- C3 witness: after creating agents a and b and one failure report from a,
the edge (a, b) holds 0.4, inside [0.1, 1.0]. -/
theorem trust_scores_in_range_witness :
    (("a", "b"), (2 : ℚ)/5) ∈ (runTrustOps c3Ops).ledger ∧
    (1 : ℚ)/10 ≤ ((("a", "b"), (2 : ℚ)/5) : (String × String) × ℚ).2 ∧
    ((("a", "b"), (2 : ℚ)/5) : (String × String) × ℚ).2 ≤ 1 := by
  have hmem : (("a", "b"), (2 : ℚ)/5) ∈ (runTrustOps c3Ops).ledger := by
    have heq : (runTrustOps c3Ops).ledger =
        [(("b", "a"), 2/5), (("a", "b"), 2/5)] := by
      simp [runTrustOps, c3Ops, applyTrustOp, seedTrust, updateTrust, ledgerSet, ledgerAdjust]
      norm_num
    rw [heq]
    norm_num
  exact ⟨hmem, trust_scores_in_range c3Ops _ hmem⟩

/-- C7: the collaborative selection score is monotonically non-decreasing in
the reliability score: for any task requirements and any two states of the
same agent that agree on everything except reliability (same success rate,
efficiency, load, capability set and trust edges), under the default
performance weights the state with the higher reliability never scores
lower. -/
theorem collaborative_score_monotone_reliability (st : SelState) (reqs : List String)
    (a : SelAgent) (r1 r2 : ℚ) (hw : a.weights = defaultWeights) (h : r1 ≤ r2) :
    collaborativeScore st reqs { a with metrics := { a.metrics with reliability_score := r1 } } ≤
    collaborativeScore st reqs { a with metrics := { a.metrics with reliability_score := r2 } } := by
  have h3 : (0 : ℚ) ≤ a.weights.reliability := by rw [hw]; norm_num [defaultWeights]
  simp only [collaborativeScore]
  apply max_le_max le_rfl
  apply min_le_min le_rfl
  have hr : r1 * a.weights.reliability ≤ r2 * a.weights.reliability :=
    mul_le_mul_of_nonneg_right h h3
  nlinarith [hr]

/-- C7 witness: raising the reliability of a concrete agent from 1/2 to 3/4
does not lower its collaborative score. -/
theorem collaborative_score_monotone_reliability_witness :
    c7Agent.weights = defaultWeights ∧ (1 : ℚ)/2 ≤ 3/4 ∧
    collaborativeScore ⟨[], []⟩ ["r"]
        { c7Agent with metrics := { c7Agent.metrics with reliability_score := 1/2 } } ≤
      collaborativeScore ⟨[], []⟩ ["r"]
        { c7Agent with metrics := { c7Agent.metrics with reliability_score := 3/4 } } :=
  ⟨rfl, by norm_num,
    collaborative_score_monotone_reliability ⟨[], []⟩ ["r"] c7Agent (1/2) (3/4) rfl (by norm_num)⟩

/-- C1 counterexample: two Active candidates where one contribution call
only finishes after 11 seconds: the available set is non-empty and one
partial response did complete in time, yet `coordinate_agents` returns the
timeout failure result (success = false) instead of combining the partial
responses. -/
theorem coordination_timeout_counterexample :
    availableAgents c1Agents c1Ids ≠ [] ∧
    (coordinateAgents c1Agents c1Ids CoordinationMode.collaborative c1Oracle).success = false ∧
    (coordinateAgents c1Agents c1Ids CoordinationMode.collaborative c1Oracle).errorMsg =
      some "Coordination timeout" := by
  refine ⟨by decide, ?_, ?_⟩ <;> decide

/-- C1 (amended): with at least one Active candidate, the 10-second window
bounds the whole gather: if any contribution call finishes after the window
the coordination returns the explicit timeout failure result and no partial
combination happens; only when every call finishes within the window does
the coordination succeed, and then a call that raised an exception is
recorded as a zero-contribution, zero-confidence entry rather than being
dropped. -/
theorem coordination_window_behavior (agents : List CoordAgent) (agentIds : List String)
    (mode : CoordinationMode) (oracle : String → ContribOutcome)
    (hne : availableAgents agents agentIds ≠ []) :
    ((∃ aid ∈ availableAgents agents agentIds, (oracle aid).finish > 10) →
      (coordinateAgents agents agentIds mode oracle).success = false ∧
      (coordinateAgents agents agentIds mode oracle).errorMsg = some "Coordination timeout")
    ∧ ((∀ aid ∈ availableAgents agents agentIds, (oracle aid).finish ≤ 10) →
      (coordinateAgents agents agentIds mode oracle).success = true ∧
      ∀ aid ∈ availableAgents agents agentIds, (oracle aid).isExn = true →
        zeroEntry aid ∈ (coordinateAgents agents agentIds mode oracle).entries) := by
  constructor
  · intro hex
    have hany : (availableAgents agents agentIds).any
        (fun aid => (oracle aid).finish > 10) = true := by
      rcases hex with ⟨aid, hmem, hgt⟩
      exact List.any_eq_true.mpr ⟨aid, hmem, decide_eq_true hgt⟩
    constructor <;> simp [coordinateAgents, hne, hany]
  · intro hall
    have hany : (availableAgents agents agentIds).any
        (fun aid => (oracle aid).finish > 10) = false := by
      rw [Bool.eq_false_iff]
      intro hc
      rcases List.any_eq_true.mp hc with ⟨aid, hmem, hgt⟩
      exact absurd (of_decide_eq_true hgt) (not_lt.mpr (hall aid hmem))
    constructor
    · simp [coordinateAgents, hne, hany]
    · intro aid hmem hexn
      have hent : (coordinateAgents agents agentIds mode oracle).entries =
          (availableAgents agents agentIds).map
            (fun aid => contribEntry aid (oracle aid)) := by
        simp [coordinateAgents, hne, hany]
      rw [hent]
      refine List.mem_map.mpr ⟨aid, hmem, ?_⟩
      cases hc : oracle aid with
      | ok f c conf => rw [hc] at hexn; simp [ContribOutcome.isExn] at hexn
      | exn f => simp [contribEntry]

/-- C1 witness: the timeout scenario instantiating the amended theorem, with
the slow call witnessing the existential. -/
theorem coordination_window_behavior_witness :
    availableAgents c1Agents c1Ids ≠ [] ∧
    ((coordinateAgents c1Agents c1Ids CoordinationMode.collaborative c1Oracle).success = false ∧
     (coordinateAgents c1Agents c1Ids CoordinationMode.collaborative c1Oracle).errorMsg =
       some "Coordination timeout") := by
  have hne : availableAgents c1Agents c1Ids ≠ [] := by decide
  exact ⟨hne, (coordination_window_behavior c1Agents c1Ids
    CoordinationMode.collaborative c1Oracle hne).1 ⟨"a2", by decide, by decide⟩⟩

end MAO
